import Mathlib

/-!
Shallow embedding of the Paddi CLI orchestration core: the configuration
resolver (src/cli/src/config/mod.rs), the agent orchestrator
(src/cli/src/orchestrator/mod.rs) and the pre-flight gates of the command
wrappers (src/cli/src/commands/analyze.rs, report.rs).

`PathBuf` values are modelled as `String` (`display()` is the identity on
this model); process exit statuses are modelled by their `Nat` exit code
(`status.success()` holds exactly for code 0); captured stdout/stderr byte
streams are modelled as the `String` that `String::from_utf8_lossy`
produces. The filesystem is an explicit value threaded through the
configuration functions, and the subprocess world is an explicit
environment threaded through the pipeline functions.
-/

namespace Paddi

/-! ### Configuration data model (src/cli/src/config/mod.rs) -/

/-- Mirrors `PythonConfig` (config/mod.rs lines 23-30). -/
structure PythonConfig where
  command : String
  agents_path : String
deriving Repr, DecidableEq

/-- Mirrors `GcpConfig` (config/mod.rs lines 32-36). -/
structure GcpConfig where
  project_id : Option String
  use_mock : Bool
deriving Repr, DecidableEq

/-- Mirrors `PathsConfig` (config/mod.rs lines 38-45). -/
structure PathsConfig where
  data_dir : String
  output_dir : String
deriving Repr, DecidableEq

/-- Mirrors `ExecutionConfig` (config/mod.rs lines 47-54). -/
structure ExecutionConfig where
  parallel : Bool
  timeout_seconds : Nat
deriving Repr, DecidableEq

/-- Mirrors `Config` (config/mod.rs lines 8-21). -/
structure Config where
  python : PythonConfig
  gcp : GcpConfig
  paths : PathsConfig
  execution : ExecutionConfig
deriving Repr, DecidableEq

/-- Mirrors `default_python_command` (config/mod.rs line 103). -/
def default_python_command : String := "python3"

/-- Mirrors `default_agents_path` (config/mod.rs line 107). -/
def default_agents_path : String := "python_agents"

/-- Mirrors `default_data_dir` (config/mod.rs line 111). -/
def default_data_dir : String := "data"

/-- Mirrors `default_output_dir` (config/mod.rs line 115). -/
def default_output_dir : String := "output"

/-- Mirrors `default_parallel` (config/mod.rs line 119). -/
def default_parallel : Bool := false

/-- Mirrors `default_timeout` (config/mod.rs line 123). -/
def default_timeout : Nat := 300

/-- Mirrors `impl Default for PythonConfig` (config/mod.rs lines 67-74). -/
def PythonConfig.default : PythonConfig :=
  { command := default_python_command, agents_path := default_agents_path }

/-- Mirrors `impl Default for GcpConfig` (config/mod.rs lines 76-83). -/
def GcpConfig.default : GcpConfig :=
  { project_id := none, use_mock := true }

/-- Mirrors `impl Default for PathsConfig` (config/mod.rs lines 85-92). -/
def PathsConfig.default : PathsConfig :=
  { data_dir := default_data_dir, output_dir := default_output_dir }

/-- Mirrors `impl Default for ExecutionConfig` (config/mod.rs lines 94-101). -/
def ExecutionConfig.default : ExecutionConfig :=
  { parallel := default_parallel, timeout_seconds := default_timeout }

/-- Mirrors `impl Default for Config` (config/mod.rs lines 56-65). -/
def Config.default : Config :=
  { python := PythonConfig.default, gcp := GcpConfig.default,
    paths := PathsConfig.default, execution := ExecutionConfig.default }

/-! ### TOML document layer

A well-typed TOML source document as serde sees it: each top-level table is
either absent or present, and each key inside a present table is either
absent or present with a value of the declared type. -/

/-- Keys of a `[python]` table; `none` means the key is absent. -/
structure PythonToml where
  command : Option String
  agents_path : Option String
deriving Repr, DecidableEq

/-- Keys of a `[gcp]` table; `none` means the key is absent. -/
structure GcpToml where
  project_id : Option String
  use_mock : Option Bool
deriving Repr, DecidableEq

/-- Keys of a `[paths]` table; `none` means the key is absent. -/
structure PathsToml where
  data_dir : Option String
  output_dir : Option String
deriving Repr, DecidableEq

/-- Keys of an `[execution]` table; `none` means the key is absent. -/
structure ExecutionToml where
  parallel : Option Bool
  timeout_seconds : Option Nat
deriving Repr, DecidableEq

/-- Top-level tables of a configuration document; `none` means the table is
absent from the file. -/
structure TomlDoc where
  python : Option PythonToml
  gcp : Option GcpToml
  paths : Option PathsToml
  execution : Option ExecutionToml
deriving Repr, DecidableEq

/-- Errors of the configuration resolver. `missingField` is serde's
"missing field" deserialization error; `readFailed` is the wrapped
"Failed to read config file" I/O error of `Config::from_file`. -/
inductive ConfigError where
  | missingField (table field : String)
  | readFailed (path : String)
deriving Repr, DecidableEq

/-- Deserialization of the `python` field of `Config`. The field carries
`#[serde(default)]` so an absent table yields `PythonConfig::default()`;
both keys carry `#[serde(default = ...)]`, so each absent key falls back to
its default function. -/
def parsePython : Option PythonToml → PythonConfig
  | none => PythonConfig.default
  | some t =>
    { command := t.command.getD default_python_command,
      agents_path := t.agents_path.getD default_agents_path }

/-- Deserialization of the `gcp` field of `Config`. The field carries
`#[serde(default)]` so an absent table yields `GcpConfig::default()`.
Inside a present table, `project_id : Option<String>` is optional for serde
(absent key becomes `None`) but `use_mock : bool` carries no
`#[serde(default)]` (config/mod.rs lines 32-36), so a present `[gcp]`
table without a `use_mock` key fails with serde's missing-field error. -/
def parseGcp : Option GcpToml → Except ConfigError GcpConfig
  | none => .ok GcpConfig.default
  | some t =>
    match t.use_mock with
    | none => .error (.missingField "gcp" "use_mock")
    | some b => .ok { project_id := t.project_id, use_mock := b }

/-- Deserialization of the `paths` field of `Config`; both keys have
per-field defaults. -/
def parsePaths : Option PathsToml → PathsConfig
  | none => PathsConfig.default
  | some t =>
    { data_dir := t.data_dir.getD default_data_dir,
      output_dir := t.output_dir.getD default_output_dir }

/-- Deserialization of the `execution` field of `Config`; both keys have
per-field defaults. -/
def parseExecution : Option ExecutionToml → ExecutionConfig
  | none => ExecutionConfig.default
  | some t =>
    { parallel := t.parallel.getD default_parallel,
      timeout_seconds := t.timeout_seconds.getD default_timeout }

/-- Mirrors `toml::from_str::<Config>` on a well-typed document, following
the serde attributes on `Config` and its four section structs. -/
def parseConfig (d : TomlDoc) : Except ConfigError Config :=
  match parseGcp d.gcp with
  | .error e => .error e
  | .ok g =>
    .ok { python := parsePython d.python, gcp := g,
          paths := parsePaths d.paths, execution := parseExecution d.execution }

/-- Mirrors `toml::to_string_pretty` on a `Config` (as used by
`Config::save`, config/mod.rs line 169): every table and every key is
emitted, except that a `None` `project_id` is skipped by the toml
serializer (the key is simply absent from the written document). -/
def serializeConfig (c : Config) : TomlDoc :=
  { python := some { command := some c.python.command,
                     agents_path := some c.python.agents_path },
    gcp := some { project_id := c.gcp.project_id,
                  use_mock := some c.gcp.use_mock },
    paths := some { data_dir := some c.paths.data_dir,
                    output_dir := some c.paths.output_dir },
    execution := some { parallel := some c.execution.parallel,
                        timeout_seconds := some c.execution.timeout_seconds } }

/-! ### Filesystem model for the configuration resolver -/

/-- Explicit filesystem state: the parseable configuration files it holds
(indexed by path; `none` means no readable file at that path) and the
platform user-config directory reported by `dirs::config_dir()`. -/
structure FS where
  files : String → Option TomlDoc
  configDir : Option String

/-- Mirrors `Config::from_file` (config/mod.rs lines 148-157): read the
file at `path`, then deserialize it. -/
def Config.from_file (fs : FS) (path : String) : Except ConfigError Config :=
  match fs.files path with
  | none => .error (.readFailed path)
  | some d => parseConfig d

/-- Mirrors the candidate path for the user-config file,
`dirs::config_dir().map(|p| p.join("paddi").join("config.toml")).unwrap_or_default()`
(config/mod.rs lines 133-135): the empty path when no config directory
exists on the platform. -/
def user_config_path (fs : FS) : String :=
  match fs.configDir with
  | some d => d ++ "/paddi/config.toml"
  | none => ""

/-- Mirrors the `config_paths` candidate list of `Config::load`
(config/mod.rs lines 130-136). -/
def configCandidates (fs : FS) : List String :=
  ["paddi.toml", ".paddi.toml", user_config_path fs]

/-- Mirrors `Config::load` (config/mod.rs lines 128-146): return
`from_file` on the first candidate that exists, or the built-in defaults
when none exists. -/
def Config.load (fs : FS) : Except ConfigError Config :=
  match (configCandidates fs).find? (fun p => (fs.files p).isSome) with
  | some p => Config.from_file fs p
  | none => .ok Config.default

/-- Mirrors `Config::save` (config/mod.rs lines 159-175) on a writable
path: the serialized document replaces whatever was at `path`. -/
def Config.save (c : Config) (path : String) (fs : FS) : FS :=
  { fs with files := fun q => if q = path then some (serializeConfig c) else fs.files q }

/-! ### Agent orchestrator (src/cli/src/orchestrator/mod.rs) -/

/-- Mirrors `AgentResult` (orchestrator/mod.rs lines 17-22). -/
structure AgentResult where
  success : Bool
  output : String
  error : String
deriving Repr, DecidableEq

/-- Outcome of one subprocess launch, as observed by `run_python_agent`:
the `timeout(timeout_duration, cmd.output())` race elapsed first
(`timeout`), the spawn itself failed (`spawnFailed`), or the process ran to
completion with the given exit code and captured stdout/stderr
(`completed`). The `kill_on_drop(true)` flag on the command (orchestrator/
mod.rs line 142) forcibly terminates the child on the `timeout` path. -/
inductive InvokeOutcome where
  | timeout
  | spawnFailed
  | completed (exitCode : Nat) (stdout stderr : String)
deriving Repr, DecidableEq

/-- Mirrors `AgentOrchestrator::run_python_agent` (orchestrator/mod.rs
lines 132-163) after the subprocess outcome is known: a timeout or spawn
failure is an error (with the `context` message attached there), while a
completed process yields `Ok(AgentResult)` whose `success` is
`output.status.success()`, i.e. exit code zero. -/
def run_python_agent : InvokeOutcome → Except String AgentResult
  | .timeout => .error "Agent execution timed out"
  | .spawnFailed => .error "Failed to execute Python agent"
  | .completed code out err => .ok { success := code == 0, output := out, error := err }

/-- Mirrors the argument vector built by `AgentOrchestrator::run_collector`
(orchestrator/mod.rs lines 44-58): `use_mock.or(Some(config.gcp.use_mock))`
then `project_id.or(config.gcp.project_id)`, each pushed as a flag when
`Some`. `run_explainer` (lines 60-74) builds the identical vector. -/
def collector_args (cfg : Config) (use_mock : Option Bool) (project_id : Option String) :
    List String :=
  (match use_mock.or (some cfg.gcp.use_mock) with
   | some b => ["--use_mock=" ++ toString b]
   | none => []) ++
  (match project_id.or cfg.gcp.project_id with
   | some p => ["--project_id=" ++ p]
   | none => [])

/-- Mirrors the argument vector built by `AgentOrchestrator::run_reporter`
(orchestrator/mod.rs lines 76-90): `input_dir.or(Some(config.paths.data_dir))`
then `output_dir.or(Some(config.paths.output_dir))`. -/
def reporter_args (cfg : Config) (input_dir output_dir : Option String) : List String :=
  (match input_dir.or (some cfg.paths.data_dir) with
   | some d => ["--input_dir=" ++ d]
   | none => []) ++
  (match output_dir.or (some cfg.paths.output_dir) with
   | some d => ["--output_dir=" ++ d]
   | none => [])

/-- The three pipeline stages sequenced by `run_full_audit`. -/
inductive Stage where
  | collect
  | explain
  | report
deriving Repr, DecidableEq

/-- Explicit external world of one pipeline run: the result of
`ensure_directories` (orchestrator/mod.rs lines 165-175) and, for each
stage script invoked with an argument vector, the subprocess outcome. -/
structure Env where
  ensureDirs : Except String Unit
  invoke : Stage → List String → InvokeOutcome

/-- Mirrors `AgentOrchestrator::run_full_audit` (orchestrator/mod.rs lines
92-130), additionally recording the list of stages whose scripts were
invoked. Directories are ensured first; then Collect, Explain and Report
run in order, each halting the run when its result has `success = false`
(with the constant `anyhow::bail!` message of that stage; the captured
stderr is written to the error log, not to the returned error) or when
`run_python_agent` itself fails (timeout or spawn failure, whose error
propagates via `?`). -/
def run_full_audit (env : Env) (cfg : Config) (use_mock : Option Bool)
    (project_id : Option String) : Except String Unit × List Stage :=
  match env.ensureDirs with
  | .error e => (.error e, [])
  | .ok _ =>
    match run_python_agent (env.invoke .collect (collector_args cfg use_mock project_id)) with
    | .error e => (.error e, [.collect])
    | .ok r =>
      if r.success then
        match run_python_agent (env.invoke .explain (collector_args cfg use_mock project_id)) with
        | .error e => (.error e, [.collect, .explain])
        | .ok r2 =>
          if r2.success then
            match run_python_agent (env.invoke .report (reporter_args cfg none none)) with
            | .error e => (.error e, [.collect, .explain, .report])
            | .ok r3 =>
              if r3.success then (.ok (), [.collect, .explain, .report])
              else (.error "Reporter agent failed", [.collect, .explain, .report])
          else (.error "Explainer agent failed", [.collect, .explain])
      else (.error "Collector agent failed", [.collect])

/-! ### Pre-flight filesystem probes (check_agents_exist and the
input-artifact gates of analyze.rs and report.rs) -/

/-- Result of one `tokio::fs::try_exists` probe: the path exists, the path
does not exist, or the probe itself failed with an I/O error. -/
inductive ProbeResult where
  | found
  | missing
  | ioError
deriving Repr, DecidableEq

/-- Mirrors `try_exists(&path).await.unwrap_or(false)`: an I/O error from
the probe collapses to `false`, exactly like a missing path. -/
def try_exists_unwrap_or (r : ProbeResult) : Bool :=
  match r with
  | .found => true
  | .missing => false
  | .ioError => false

/-- Mirrors the fixed relative script list of `check_agents_exist`
(orchestrator/mod.rs lines 208-212). -/
def agent_scripts : List String :=
  ["collector/agent_collector.py", "explainer/agent_explainer.py", "reporter/agent_reporter.py"]

/-- Mirrors `check_agents_exist` (orchestrator/mod.rs lines 207-222): bail
with "Agent not found" on the first script whose existence probe does not
return true. -/
def check_agents_exist (agents_path : String) (probe : String → ProbeResult) :
    Except String Unit :=
  match agent_scripts.find? (fun a => !(try_exists_unwrap_or (probe (agents_path ++ "/" ++ a)))) with
  | some a => .error ("Agent not found: " ++ agents_path ++ "/" ++ a)
  | none => .ok ()

/-- Mirrors the input-artifact gate of `analyze::run` (commands/analyze.rs
lines 29-36); the trailing hint text of the bail message is elided. -/
def analyze_input_check (cfg : Config) (probe : String → ProbeResult) : Except String Unit :=
  let input_file := cfg.paths.data_dir ++ "/" ++ "collected.json"
  if try_exists_unwrap_or (probe input_file) then .ok ()
  else .error ("Input file not found: " ++ input_file)

/-- Mirrors the input-artifact gate of `report::run` (commands/report.rs
lines 33-41); the trailing hint text of the bail message is elided. -/
def report_input_check (cfg : Config) (input_dir : Option String)
    (probe : String → ProbeResult) : Except String Unit :=
  let input_file := (input_dir.getD cfg.paths.data_dir) ++ "/" ++ "explained.json"
  if try_exists_unwrap_or (probe input_file) then .ok ()
  else .error ("Input file not found: " ++ input_file)

/-- Collapses an I/O-erroring probe to a missing-path probe; used to state
that the pre-flight checks cannot distinguish the two. -/
def degradeProbe : ProbeResult → ProbeResult
  | .ioError => .missing
  | r => r

/-- Modelled from the spec: the `format` parameter of the Report stage.
The three-argument `run_reporter` that `commands/report.rs` line 52 invokes
(`run_reporter(args.input_dir.clone(), args.output_dir.clone(), args.format)`)
is absent from src/cli/src/orchestrator/mod.rs, which defines only the
two-argument version above; its serialization of the format list is
modelled from spec section 4.2: a caller-supplied list of report formats
serializes as a single comma-joined flag value, and the flag is omitted
entirely when no override is present (the configuration carries no format
field). -/
def reporter_format_args (format : Option (List String)) : List String :=
  match format with
  | some fmts => ["--format=" ++ String.intercalate "," fmts]
  | none => []

/-- Modelled from the spec: full argument vector of the three-argument
`run_reporter` invoked by commands/report.rs line 52 — the two path flags
derived exactly as in `reporter_args`, followed by the format flag. -/
def reporter_args_with_format (cfg : Config) (input_dir output_dir : Option String)
    (format : Option (List String)) : List String :=
  reporter_args cfg input_dir output_dir ++ reporter_format_args format

/-! ### Substring search helper, used to state that a diagnostic text does
not occur in an error message -/

/-- Boolean prefix test on character lists. -/
def listStartsWith : List Char → List Char → Bool
  | _, [] => true
  | [], _ :: _ => false
  | a :: as, b :: bs => a == b && listStartsWith as bs

/-- Boolean substring test on character lists: the needle starts at some
position of the haystack. -/
def listContainsSub : List Char → List Char → Bool
  | [], needle => needle.isEmpty
  | h :: t, needle => listStartsWith (h :: t) needle || listContainsSub t needle

/-- Boolean substring test on strings. -/
def strContains (hay needle : String) : Bool :=
  listContainsSub hay.toList needle.toList

/-! ### Concrete sample worlds used to instantiate the theorems -/

/-- Sample world where the collector script exits 1 with some stderr and
the later stage scripts would succeed. -/
def envCollectFail : Env :=
  { ensureDirs := .ok (),
    invoke := fun s _ =>
      match s with
      | .collect => .completed 1 "" "collector stderr"
      | .explain => .completed 0 "" ""
      | .report => .completed 0 "" "" }

/-- Sample world where the collector succeeds and the explainer exits 2. -/
def envExplainFail : Env :=
  { ensureDirs := .ok (),
    invoke := fun s _ =>
      match s with
      | .collect => .completed 0 "" ""
      | .explain => .completed 2 "" "explainer stderr"
      | .report => .completed 0 "" "" }

/-- Sample world where the collector subprocess hits the timeout deadline. -/
def envTimeoutCollect : Env :=
  { ensureDirs := .ok (),
    invoke := fun s _ =>
      match s with
      | .collect => .timeout
      | .explain => .completed 0 "" ""
      | .report => .completed 0 "" "" }

/-- Sample world where the collector succeeds and the explainer subprocess
hits the timeout deadline. -/
def envTimeoutExplain : Env :=
  { ensureDirs := .ok (),
    invoke := fun s _ =>
      match s with
      | .collect => .completed 0 "" ""
      | .explain => .timeout
      | .report => .completed 0 "" "" }

/-- Sample world of spec scenario B: the collector succeeds and the
explainer exits 1 with stderr "boom". -/
def envBoom : Env :=
  { ensureDirs := .ok (),
    invoke := fun s _ =>
      match s with
      | .collect => .completed 0 "collected" ""
      | .explain => .completed 1 "" "boom"
      | .report => .completed 0 "" "" }

/-- Configuration source document holding only a `[gcp]` table that names
only `project_id` — the document of the repository's own
`test_partial_config` unit test (config/tests.rs lines 27-42) restricted
to its `[gcp]` table. -/
def partialGcpDoc : TomlDoc :=
  { python := none,
    gcp := some { project_id := some "test-project", use_mock := none },
    paths := none, execution := none }

/-- Configuration source document with no tables at all. -/
def emptyDoc : TomlDoc :=
  { python := none, gcp := none, paths := none, execution := none }

/-- Configuration source document holding only a `[python]` table that
names only `command`. -/
def docA : TomlDoc :=
  { python := some { command := some "python", agents_path := none },
    gcp := none, paths := none, execution := none }

/-- Filesystem holding only `./paddi.toml`. -/
def fsA : FS :=
  { files := fun p => if p = "paddi.toml" then some docA else none,
    configDir := none }

/-- Filesystem holding only `./.paddi.toml`. -/
def fsB : FS :=
  { files := fun p => if p = ".paddi.toml" then some docA else none,
    configDir := none }

/-- Filesystem holding only the platform user-config file. -/
def fsC : FS :=
  { files := fun p => if p = "/home/u/.config/paddi/config.toml" then some docA else none,
    configDir := some "/home/u/.config" }

/-- Filesystem holding no configuration file at all. -/
def fsNone : FS :=
  { files := fun _ => none, configDir := none }

/-- Filesystem holding only a `paddi.toml` whose `[gcp]` table names only
`project_id`. -/
def fsPartialGcp : FS :=
  { files := fun p => if p = "paddi.toml" then some partialGcpDoc else none,
    configDir := none }

/-! ## Theorems for the claims -/

/-- Claim C1: for every run of the full audit pipeline, if the Collect
stage's invocation returns with `succeeded = false`, the pipeline halts
immediately with a failure outcome and neither the Explain stage's script
nor the Report stage's script is ever invoked; likewise, if Explain fails,
Report is never invoked. -/
theorem run_full_audit_halts_on_first_failure :
    (∀ (env : Env) (cfg : Config) (um : Option Bool) (pid : Option String)
        (code : Nat) (out err : String),
        env.ensureDirs = .ok () →
        env.invoke .collect (collector_args cfg um pid) = .completed code out err →
        code ≠ 0 →
        run_full_audit env cfg um pid = (.error "Collector agent failed", [.collect]) ∧
        Stage.explain ∉ (run_full_audit env cfg um pid).2 ∧
        Stage.report ∉ (run_full_audit env cfg um pid).2) ∧
    (∀ (env : Env) (cfg : Config) (um : Option Bool) (pid : Option String)
        (out0 err0 : String) (code : Nat) (out err : String),
        env.ensureDirs = .ok () →
        env.invoke .collect (collector_args cfg um pid) = .completed 0 out0 err0 →
        env.invoke .explain (collector_args cfg um pid) = .completed code out err →
        code ≠ 0 →
        run_full_audit env cfg um pid = (.error "Explainer agent failed", [.collect, .explain]) ∧
        Stage.report ∉ (run_full_audit env cfg um pid).2) := by
  constructor
  · intro env cfg um pid code out err hd hc hcode
    have hb : (code == 0) = false := by simpa using hcode
    have heq : run_full_audit env cfg um pid = (.error "Collector agent failed", [.collect]) := by
      simp [run_full_audit, hd, hc, run_python_agent, hb]
    refine ⟨heq, ?_, ?_⟩ <;> rw [heq] <;> decide
  · intro env cfg um pid out0 err0 code out err hd hc he hcode
    have hb : (code == 0) = false := by simpa using hcode
    have heq : run_full_audit env cfg um pid =
        (.error "Explainer agent failed", [.collect, .explain]) := by
      simp [run_full_audit, hd, hc, he, run_python_agent, hb]
    refine ⟨heq, ?_⟩
    rw [heq]; decide

/-- Witness for claim C1, at the sample worlds `envCollectFail` and
`envExplainFail` with the default configuration. -/
theorem run_full_audit_halts_on_first_failure_witness :
    (run_full_audit envCollectFail Config.default none none =
        (.error "Collector agent failed", [.collect]) ∧
      Stage.explain ∉ (run_full_audit envCollectFail Config.default none none).2 ∧
      Stage.report ∉ (run_full_audit envCollectFail Config.default none none).2) ∧
    (run_full_audit envExplainFail Config.default none none =
        (.error "Explainer agent failed", [.collect, .explain]) ∧
      Stage.report ∉ (run_full_audit envExplainFail Config.default none none).2) :=
  ⟨run_full_audit_halts_on_first_failure.1 envCollectFail Config.default none none
      1 "" "collector stderr" rfl rfl (by decide),
    run_full_audit_halts_on_first_failure.2 envExplainFail Config.default none none
      "" "" 2 "" "explainer stderr" rfl rfl rfl (by decide)⟩

/-- Claim C2: for every stage invocation whose subprocess runs to
completion, the invocation returns a `StageResult` (not an error) whose
`succeeded` field is true exactly when the process exit code is zero; a
non-zero exit yields `succeeded = false` with the captured stderr stored
in the result's `error` field. -/
theorem run_python_agent_completion_contract (code : Nat) (out err : String) :
    run_python_agent (.completed code out err) =
      .ok { success := code == 0, output := out, error := err } ∧
    (run_python_agent (.completed code out err) =
        .ok { success := true, output := out, error := err } ↔ code = 0) := by
  constructor
  · rfl
  · simp [run_python_agent]

/-- Claim C3: if the subprocess has not completed when the timeout
deadline elapses, the invocation returns a `Timeout` error rather than a
`StageResult` (the child is forcibly terminated by `kill_on_drop`), and
the pipeline controller treats this error as a hard failure: the run
aborts and later stages are not invoked, equivalent to a non-zero exit. -/
theorem stage_timeout_is_hard_failure :
    run_python_agent .timeout = .error "Agent execution timed out" ∧
    (∀ (env : Env) (cfg : Config) (um : Option Bool) (pid : Option String),
        env.ensureDirs = .ok () →
        env.invoke .collect (collector_args cfg um pid) = .timeout →
        run_full_audit env cfg um pid = (.error "Agent execution timed out", [.collect])) ∧
    (∀ (env : Env) (cfg : Config) (um : Option Bool) (pid : Option String)
        (out0 err0 : String),
        env.ensureDirs = .ok () →
        env.invoke .collect (collector_args cfg um pid) = .completed 0 out0 err0 →
        env.invoke .explain (collector_args cfg um pid) = .timeout →
        run_full_audit env cfg um pid =
          (.error "Agent execution timed out", [.collect, .explain])) := by
  refine ⟨rfl, ?_, ?_⟩
  · intro env cfg um pid hd hc
    simp [run_full_audit, hd, hc, run_python_agent]
  · intro env cfg um pid out0 err0 hd hc he
    simp [run_full_audit, hd, hc, he, run_python_agent]

/-- Witness for claim C3, at the sample worlds `envTimeoutCollect` and
`envTimeoutExplain` with the default configuration. -/
theorem stage_timeout_is_hard_failure_witness :
    run_full_audit envTimeoutCollect Config.default none none =
      (.error "Agent execution timed out", [.collect]) ∧
    run_full_audit envTimeoutExplain Config.default none none =
      (.error "Agent execution timed out", [.collect, .explain]) :=
  ⟨stage_timeout_is_hard_failure.2.1 envTimeoutCollect Config.default none none rfl rfl,
    stage_timeout_is_hard_failure.2.2 envTimeoutExplain Config.default none none "" "" rfl rfl rfl⟩

/-- Claim C4 (refuted by the code, confirming a code bug): loading a
configuration file whose `[gcp]` table names only `project_id` does not
succeed — serde rejects the document with a missing-field error for
`use_mock`, because `GcpConfig` carries no `#[serde(default)]` for it
(config/mod.rs lines 32-36). This contradicts the spec's invariant and the
repository's own `test_partial_config` unit test (config/tests.rs lines
27-42), which unwraps exactly this document. A wholly absent `[gcp]` table
does default correctly, as the second and third conjuncts show. -/
theorem partial_gcp_table_parse_fails :
    parseConfig partialGcpDoc = .error (.missingField "gcp" "use_mock") ∧
    Config.from_file fsPartialGcp "paddi.toml" = .error (.missingField "gcp" "use_mock") ∧
    parseConfig emptyDoc = .ok Config.default ∧
    parseConfig docA =
      .ok { Config.default with
            python := { command := "python", agents_path := default_agents_path } } :=
  ⟨rfl, rfl, rfl, rfl⟩

/-- Counterexample to claim C5: in spec scenario B (collector succeeds,
explainer exits 1 with stderr "boom"), the outcome returned by
`run_full_audit` is the constant error "Explainer agent failed", and the
diagnostic text "boom" does not occur in it — the captured stderr is
dropped from the returned outcome (it is only written to the error log). -/
theorem pipeline_outcome_drops_stderr :
    envBoom.invoke .explain (collector_args Config.default none none) =
      .completed 1 "" "boom" ∧
    run_full_audit envBoom Config.default none none =
      (.error "Explainer agent failed", [.collect, .explain]) ∧
    strContains "Explainer agent failed" "boom" = false :=
  ⟨rfl, rfl, by decide⟩

/-- Claim C5 as amended: when a stage exits non-zero, its captured stderr
is preserved verbatim in the `error` field of the `AgentResult` produced
by the stage invocation, and the pipeline halts with a failure outcome
naming the failing stage; the stderr text itself is not part of the
outcome `run_full_audit` returns (it is only logged). -/
theorem stderr_preserved_in_stage_result :
    ∀ (env : Env) (cfg : Config) (um : Option Bool) (pid : Option String)
      (out0 err0 : String) (code : Nat) (out err : String),
      env.ensureDirs = .ok () →
      env.invoke .collect (collector_args cfg um pid) = .completed 0 out0 err0 →
      env.invoke .explain (collector_args cfg um pid) = .completed code out err →
      code ≠ 0 →
      run_python_agent (env.invoke .explain (collector_args cfg um pid)) =
        .ok { success := false, output := out, error := err } ∧
      run_full_audit env cfg um pid =
        (.error "Explainer agent failed", [.collect, .explain]) := by
  intro env cfg um pid out0 err0 code out err hd hc he hcode
  have hb : (code == 0) = false := by simpa using hcode
  constructor
  · rw [he]; simp [run_python_agent, hb]
  · simp [run_full_audit, hd, hc, he, run_python_agent, hb]

/-- Witness for the amended claim C5, at the sample world `envBoom` of
spec scenario B. -/
theorem stderr_preserved_in_stage_result_witness :
    run_python_agent (envBoom.invoke .explain (collector_args Config.default none none)) =
      .ok { success := false, output := "", error := "boom" } ∧
    run_full_audit envBoom Config.default none none =
      (.error "Explainer agent failed", [.collect, .explain]) :=
  stderr_preserved_in_stage_result envBoom Config.default none none
    "collected" "" 1 "" "boom" rfl rfl rfl (by decide)

/-- Claim C6: for every optional stage parameter (`useMock`, `projectId`,
`inputDir`, `outputDir`), the serialized command-line argument reflects a
caller-supplied override whenever one is present, never the configuration
value; the configuration value is used only when no override is supplied. -/
theorem explicit_override_precedence :
    ∀ (cfg : Config) (b : Bool) (p i o : String),
      collector_args cfg (some b) (some p) =
        ["--use_mock=" ++ toString b, "--project_id=" ++ p] ∧
      collector_args cfg (some b) none =
        ["--use_mock=" ++ toString b] ++
          (match cfg.gcp.project_id with
           | some q => ["--project_id=" ++ q]
           | none => []) ∧
      collector_args cfg none (some p) =
        ["--use_mock=" ++ toString cfg.gcp.use_mock, "--project_id=" ++ p] ∧
      collector_args cfg none none =
        ["--use_mock=" ++ toString cfg.gcp.use_mock] ++
          (match cfg.gcp.project_id with
           | some q => ["--project_id=" ++ q]
           | none => []) ∧
      reporter_args cfg (some i) (some o) =
        ["--input_dir=" ++ i, "--output_dir=" ++ o] ∧
      reporter_args cfg (some i) none =
        ["--input_dir=" ++ i, "--output_dir=" ++ cfg.paths.output_dir] ∧
      reporter_args cfg none (some o) =
        ["--input_dir=" ++ cfg.paths.data_dir, "--output_dir=" ++ o] ∧
      reporter_args cfg none none =
        ["--input_dir=" ++ cfg.paths.data_dir, "--output_dir=" ++ cfg.paths.output_dir] := by
  intro cfg b p i o
  cases h : cfg.gcp.project_id <;>
    simp [collector_args, reporter_args, Option.or, h]

/-- Claim C7: for every configuration value and every writable path,
`save` followed by `from_file` on that path succeeds and reproduces a
configuration equal to the original in every field, including the case
`project_id = None` (the universally quantified `c.gcp.project_id` covers
both `none` and `some`). -/
theorem save_then_from_file_roundtrip :
    ∀ (c : Config) (p : String) (fs : FS),
      Config.from_file (Config.save c p fs) p = .ok c := by
  intro c p fs
  obtain ⟨⟨pc, pa⟩, ⟨pi, um⟩, ⟨dd, od⟩, ⟨pl, ts⟩⟩ := c
  simp [Config.from_file, Config.save, serializeConfig, parseConfig, parseGcp,
    parsePython, parsePaths, parseExecution]

/-- Claim C8: `load` consults `./paddi.toml`, then `./.paddi.toml`, then
the platform user-config file, in that fixed order; the first existing
file wins (the result is `from_file` of that file alone, whatever the
later candidates hold), no file is required to exist, and when none exists
`load` returns the built-in defaults without failing. -/
theorem load_resolution_order :
    (∀ (fs : FS) (d : TomlDoc), fs.files "paddi.toml" = some d →
        Config.load fs = Config.from_file fs "paddi.toml") ∧
    (∀ (fs : FS) (d : TomlDoc), fs.files "paddi.toml" = none →
        fs.files ".paddi.toml" = some d →
        Config.load fs = Config.from_file fs ".paddi.toml") ∧
    (∀ (fs : FS) (d : TomlDoc), fs.files "paddi.toml" = none →
        fs.files ".paddi.toml" = none →
        fs.files (user_config_path fs) = some d →
        Config.load fs = Config.from_file fs (user_config_path fs)) ∧
    (∀ fs : FS, fs.files "paddi.toml" = none →
        fs.files ".paddi.toml" = none →
        fs.files (user_config_path fs) = none →
        Config.load fs = .ok Config.default) := by
  refine ⟨?_, ?_, ?_, ?_⟩
  · intro fs d h
    simp [Config.load, configCandidates, List.find?, h]
  · intro fs d h1 h2
    simp [Config.load, configCandidates, List.find?, h1, h2]
  · intro fs d h1 h2 h3
    simp [Config.load, configCandidates, List.find?, h1, h2, h3]
  · intro fs h1 h2 h3
    simp [Config.load, configCandidates, List.find?, h1, h2, h3]

/-- Witness for claim C8, at four concrete filesystems: one holding only
`./paddi.toml`, one holding only `./.paddi.toml`, one holding only the
platform user-config file, and one holding no configuration file. -/
theorem load_resolution_order_witness :
    Config.load fsA = Config.from_file fsA "paddi.toml" ∧
    Config.load fsB = Config.from_file fsB ".paddi.toml" ∧
    Config.load fsC = Config.from_file fsC (user_config_path fsC) ∧
    Config.load fsNone = .ok Config.default :=
  ⟨load_resolution_order.1 fsA docA (by decide),
    load_resolution_order.2.1 fsB docA (by decide) (by decide),
    load_resolution_order.2.2.1 fsC docA (by decide) (by decide) (by decide),
    load_resolution_order.2.2.2 fsNone rfl rfl rfl⟩

/-- Claim C9 (the three-argument `run_reporter` is modelled from the spec,
see `reporter_format_args`): when the caller supplies a format override,
it is serialized as a single comma-joined `--format` flag at the end of
the reporter's argument vector; when no override is present (the
configuration carries no format value), the flag is omitted entirely. -/
theorem format_flag_comma_joined :
    ∀ (cfg : Config) (i o : String) (fmts : List String),
      reporter_args_with_format cfg (some i) (some o) (some fmts) =
        ["--input_dir=" ++ i, "--output_dir=" ++ o,
         "--format=" ++ String.intercalate "," fmts] ∧
      reporter_args_with_format cfg none none none =
        ["--input_dir=" ++ cfg.paths.data_dir, "--output_dir=" ++ cfg.paths.output_dir] ∧
      reporter_format_args (some ["markdown", "html"]) = ["--format=markdown,html"] := by
  intro cfg i o fmts
  refine ⟨?_, ?_, rfl⟩ <;>
    simp [reporter_args_with_format, reporter_args, reporter_format_args, Option.or]

/-- Claim C10: every filesystem existence probe of the pre-flight checks
(stage-script existence and input-artifact presence) treats an I/O error
while probing exactly like the file not existing: each check's result is
unchanged when I/O-erroring probes are replaced by missing-path probes,
and an I/O error yields the same "not found" bail message, never a
distinct I/O error. -/
theorem probe_io_error_treated_as_missing :
    ∀ (agents_path : String) (probe : String → ProbeResult) (cfg : Config)
      (idir : Option String),
      try_exists_unwrap_or .ioError = try_exists_unwrap_or .missing ∧
      check_agents_exist agents_path (degradeProbe ∘ probe) =
        check_agents_exist agents_path probe ∧
      analyze_input_check cfg (degradeProbe ∘ probe) = analyze_input_check cfg probe ∧
      report_input_check cfg idir (degradeProbe ∘ probe) = report_input_check cfg idir probe ∧
      check_agents_exist agents_path (fun _ => .ioError) =
        .error ("Agent not found: " ++ agents_path ++ "/" ++ "collector/agent_collector.py") := by
  intro agents_path probe cfg idir
  have h : ∀ r, try_exists_unwrap_or (degradeProbe r) = try_exists_unwrap_or r := by
    intro r; cases r <;> rfl
  refine ⟨rfl, ?_, ?_, ?_, ?_⟩
  · simp [check_agents_exist, Function.comp, h]
  · simp [analyze_input_check, Function.comp, h]
  · simp [report_input_check, Function.comp, h]
  · simp [check_agents_exist, agent_scripts, try_exists_unwrap_or, List.find?]

end Paddi
